import Mathlib

/-!
Verification of the natural-language specification of the
`langchain-for-beginners` repository against its source, via a shallow
embedding of the seven Python scripts in Lean 4.

The scripts are flat, linear sequences of library calls; the embedding
records, for each script, the statically evident facts the specification
speaks about (environment variables read, number of `invoke` calls on
framework objects, exception handlers, custom exit codes), together with
executable translations of the few genuine functions the scripts define
(`get_word_length`, `multiply`, `add`, the tool-call guard of the basic
tool script, and the index-pair loop of the embeddings script).
-/

namespace LangchainForBeginners

/-- Static facts about one script, transcribed from its source file:
the environment variables it reads via `os.getenv` (in source order), the
number of `.invoke(...)` calls it makes on constructed framework objects,
the number of `try/except` handlers and retry branches it authors, and
whether it sets a custom process exit code. -/
structure Script where
  scriptName : String
  envReads : List String
  invokeCount : Nat
  exceptionHandlers : Nat
  retryBranches : Nat
  setsExitCode : Bool
deriving DecidableEq, Repr

/-- `03-prompts-messages-outputs/code/01_basic_template.py`: reads
`AI_MODEL`, `AI_ENDPOINT`, `AI_API_KEY`; calls `chain.invoke` three times
(French, Spanish, Japanese); no handlers, no custom exit. -/
def basicTemplate : Script :=
  { scriptName := "01_basic_template"
    envReads := ["AI_MODEL", "AI_ENDPOINT", "AI_API_KEY"]
    invokeCount := 3
    exceptionHandlers := 0
    retryBranches := 0
    setsExitCode := false }

/-- `03-prompts-messages-outputs/code/02_structured_output.py`: reads
`AI_MODEL`, `AI_ENDPOINT`, `AI_API_KEY`; calls `chain.invoke` twice. -/
def structuredOutput : Script :=
  { scriptName := "02_structured_output"
    envReads := ["AI_MODEL", "AI_ENDPOINT", "AI_API_KEY"]
    invokeCount := 2
    exceptionHandlers := 0
    retryBranches := 0
    setsExitCode := false }

/-- `04-function-calling-tools/code/01_basic_tool.py`: reads `AI_MODEL`,
`AI_ENDPOINT`, `AI_API_KEY`; calls `model_with_tools.invoke` once and
`get_word_length.invoke` once. -/
def basicTool : Script :=
  { scriptName := "01_basic_tool"
    envReads := ["AI_MODEL", "AI_ENDPOINT", "AI_API_KEY"]
    invokeCount := 2
    exceptionHandlers := 0
    retryBranches := 0
    setsExitCode := false }

/-- `05-agents/code/01_basic_agent.py`: reads `AI_MODEL`, `AI_ENDPOINT`,
`AI_API_KEY`; calls `agent_executor.invoke` once. -/
def basicAgent : Script :=
  { scriptName := "01_basic_agent"
    envReads := ["AI_MODEL", "AI_ENDPOINT", "AI_API_KEY"]
    invokeCount := 1
    exceptionHandlers := 0
    retryBranches := 0
    setsExitCode := false }

/-- `06-mcp/code/01_basic_mcp.py`: a placeholder that only prints; it
reads no environment variables and makes no `invoke` calls. -/
def basicMcp : Script :=
  { scriptName := "01_basic_mcp"
    envReads := []
    invokeCount := 0
    exceptionHandlers := 0
    retryBranches := 0
    setsExitCode := false }

/-- `07-documents-embeddings-semantic-search/code/01_basic_embeddings.py`:
reads `AI_EMBEDDING_MODEL` (with a default), `AI_ENDPOINT`, `AI_API_KEY`;
it calls `embeddings.embed_documents` and `cosine_similarity` but no
`.invoke`. -/
def basicEmbeddings : Script :=
  { scriptName := "01_basic_embeddings"
    envReads := ["AI_EMBEDDING_MODEL", "AI_ENDPOINT", "AI_API_KEY"]
    invokeCount := 0
    exceptionHandlers := 0
    retryBranches := 0
    setsExitCode := false }

/-- `08-agentic-rag-systems/code/01_basic_rag.py`: reads
`AI_EMBEDDING_MODEL` (with a default), `AI_ENDPOINT`, `AI_API_KEY`,
`AI_MODEL`; calls `rag_chain.invoke` once. -/
def basicRag : Script :=
  { scriptName := "01_basic_rag"
    envReads := ["AI_EMBEDDING_MODEL", "AI_ENDPOINT", "AI_API_KEY", "AI_MODEL"]
    invokeCount := 1
    exceptionHandlers := 0
    retryBranches := 0
    setsExitCode := false }

/-- All seven scripts of the repository. -/
def allScripts : List Script :=
  [basicTemplate, structuredOutput, basicTool, basicAgent, basicMcp,
   basicEmbeddings, basicRag]

/-- The four configuration environment variables named by the spec:
model identifier, API base URL, API key, embedding-model identifier. -/
def configVars : List String :=
  ["AI_MODEL", "AI_ENDPOINT", "AI_API_KEY", "AI_EMBEDDING_MODEL"]

/-- The tool of `01_basic_tool.py`:
`def get_word_length(word: str) -> int: return len(word)`. -/
def get_word_length (word : String) : Nat :=
  word.length

/-- The `multiply` tool of `01_basic_agent.py`:
`def multiply(a: int, b: int) -> int: return a * b`. -/
def multiply (a b : Int) : Int :=
  a * b

/-- The `add` tool of `01_basic_agent.py`:
`def add(a: int, b: int) -> int: return a + b`. -/
def add (a b : Int) : Int :=
  a + b

/-- A Python type annotation appearing in the `Product` schema of
`02_structured_output.py`. -/
inductive PyType
  | str
  | float
  | boolean
deriving DecidableEq, Repr

/-- The fields of the Pydantic `Product` schema of
`02_structured_output.py`, in declaration order with their annotated
types: `name: str`, `price: float`, `category: str`, `in_stock: bool`. -/
def productFields : List (String × PyType) :=
  [("name", .str), ("price", .float), ("category", .str),
   ("in_stock", .boolean)]

/-- Every place in `02_structured_output.py` where the name `Product` is
referenced after its class definition. The single reference is the
argument of `model.with_structured_output(Product)`, which declares the
output shape of the structured-output example. -/
def productReferenceSites : List String :=
  ["with_structured_output"]

/-- The `page_content` of each document in the list constructed in
`01_basic_rag.py`. -/
def ragDocuments : List String :=
  ["LangChain is a framework for building applications with large language models.",
   "LangChain provides tools for prompt management, chains, and agents.",
   "RAG stands for Retrieval-Augmented Generation, combining search with LLM generation.",
   "Vector stores help with semantic search by storing document embeddings."]

/-- Kinds of operations a script could perform on a document list. -/
inductive DocumentOp
  | readOp
  | mutateOp
  | persistOp
deriving DecidableEq, Repr

/-- Every operation `01_basic_rag.py` performs on its `documents` list
after construction: the single reference is
`FAISS.from_documents(documents, embeddings)`, a read. -/
def ragDocumentOps : List DocumentOp :=
  [.readOp]

/-- An error arising inside a framework call, as the spec's error
section classifies them. -/
inductive FrameworkError
  | missingCredentials
  | networkFailure
  | malformedResponse
deriving DecidableEq, Repr

/-- Outcome of running a script's `main` when a framework call raises
`err`: with no authored `try/except` handler the exception propagates
out of `main`; a handler (there are none in this repository) would
swallow it. -/
def mainOutcome (s : Script) (err : Option FrameworkError) :
    Except FrameworkError Unit :=
  match err with
  | none => .ok ()
  | some e => if s.exceptionHandlers = 0 then .error e else .ok ()

/-- Process exit status of a script run: a custom exit code would
override the runtime default of 0 on completion and nonzero on an
unhandled exception. -/
def exitStatus (s : Script) (completed : Bool) : Nat :=
  if s.setsExitCode then 2 else if completed then 0 else 1

/-- The tool-execution section of `01_basic_tool.py`: under the
truthiness guard `if response.tool_calls:` it reads
`response.tool_calls[0]` and runs `get_word_length` on its arguments;
with an empty list nothing runs. The element access is modelled fallibly
with `[0]?`. A tool call carries a name and its string argument. -/
structure ToolCall where
  toolName : String
  args : String
deriving DecidableEq, Repr

/-- `runToolSection` models lines 39-45 of `01_basic_tool.py`. -/
def runToolSection (toolCalls : List ToolCall) :
    Option (String × String × Nat) :=
  if toolCalls = [] then none
  else (toolCalls[0]?).map (fun c => (c.toolName, c.args, get_word_length c.args))

/-- C1: the tool function `get_word_length` returns the character count
of its input string. -/
theorem get_word_length_is_length (w : String) : get_word_length w = w.length :=
  rfl

/-- C9: the agent's tools compute exact integer arithmetic and are
commutative: `multiply a b = a * b = multiply b a` and
`add a b = a + b = add b a` for all integers. -/
theorem agent_tools_exact_and_commutative (a b : Int) :
    multiply a b = a * b ∧ multiply a b = multiply b a ∧
    add a b = a + b ∧ add a b = add b a :=
  ⟨rfl, Int.mul_comm a b, rfl, Int.add_comm a b⟩

/-- C2 counterexample: the claim that every script reads the model
identifier, API base URL and API key is false on the code: the MCP
placeholder script reads no environment variables at all. -/
theorem mcp_reads_no_env_vars :
    basicMcp ∈ allScripts ∧ "AI_MODEL" ∉ basicMcp.envReads ∧
    "AI_ENDPOINT" ∉ basicMcp.envReads ∧ "AI_API_KEY" ∉ basicMcp.envReads := by
  decide

/-- C2 (amended): every script's environment reads are among the four
configuration variables (model identifier, API base URL, API key,
embedding-model identifier), and every script other than the MCP
placeholder reads the API base URL, the API key, and at least one of the
model identifier or the embedding-model identifier; the MCP placeholder
reads none. -/
theorem env_reads_amended (s : Script) (hs : s ∈ allScripts) :
    s.envReads ⊆ configVars ∧
    (s.scriptName ≠ "01_basic_mcp" →
      "AI_ENDPOINT" ∈ s.envReads ∧ "AI_API_KEY" ∈ s.envReads ∧
      ("AI_MODEL" ∈ s.envReads ∨ "AI_EMBEDDING_MODEL" ∈ s.envReads)) ∧
    (s.scriptName = "01_basic_mcp" → s.envReads = []) := by
  fin_cases hs <;> decide

/-- C2 witness: the amended theorem instantiated at the RAG script. -/
theorem env_reads_amended_witness :
    basicRag.envReads ⊆ configVars ∧
    (basicRag.scriptName ≠ "01_basic_mcp" →
      "AI_ENDPOINT" ∈ basicRag.envReads ∧ "AI_API_KEY" ∈ basicRag.envReads ∧
      ("AI_MODEL" ∈ basicRag.envReads ∨
        "AI_EMBEDDING_MODEL" ∈ basicRag.envReads)) ∧
    (basicRag.scriptName = "01_basic_mcp" → basicRag.envReads = []) :=
  env_reads_amended basicRag (by decide)

/-- C3 counterexample: the claim that each script makes at most two
`invoke` calls on its constructed framework object is false on the code:
`01_basic_template.py` calls `chain.invoke` three times. -/
theorem basic_template_invokes_three_times :
    basicTemplate ∈ allScripts ∧ ¬ basicTemplate.invokeCount ≤ 2 := by
  decide

/-- C3 (amended): each script makes at most three `invoke` calls on the
framework objects it constructs. -/
theorem invoke_count_at_most_three (s : Script) (hs : s ∈ allScripts) :
    s.invokeCount ≤ 3 := by
  fin_cases hs <;> decide

/-- C3 witness: the amended theorem instantiated at the template
script. -/
theorem invoke_count_at_most_three_witness :
    basicTemplate.invokeCount ≤ 3 :=
  invoke_count_at_most_three basicTemplate (by decide)

/-- C4: the transient `Product` schema declares exactly the four fields
`name : str`, `price : float`, `category : str`, `in_stock : bool`, and
its only reference after definition is as the output-shape argument of
`with_structured_output`. -/
theorem product_schema_shape :
    productFields.map Prod.fst = ["name", "price", "category", "in_stock"] ∧
    productFields.length = 4 ∧
    ("name", PyType.str) ∈ productFields ∧
    ("price", PyType.float) ∈ productFields ∧
    ("category", PyType.str) ∈ productFields ∧
    ("in_stock", PyType.boolean) ∈ productFields ∧
    productReferenceSites = ["with_structured_output"] := by
  decide

/-- C5: the RAG script's document collection holds exactly four sample
texts, and the only operation the script performs on it after
construction is a read (no mutation, no persistence). -/
theorem rag_documents_four_and_immutable :
    ragDocuments.length = 4 ∧
    ragDocumentOps = [DocumentOp.readOp] ∧
    DocumentOp.mutateOp ∉ ragDocumentOps ∧
    DocumentOp.persistOp ∉ ragDocumentOps := by
  decide

/-- C6: no script authors any error handling: every script has zero
exception handlers and zero retry branches, so a framework error raised
during `main` propagates out of `main` unhandled. -/
theorem no_error_handling (s : Script) (hs : s ∈ allScripts) :
    s.exceptionHandlers = 0 ∧ s.retryBranches = 0 ∧
    ∀ e : FrameworkError, mainOutcome s (some e) = .error e := by
  fin_cases hs <;> exact ⟨rfl, rfl, fun e => rfl⟩

/-- C6 witness: the theorem instantiated at the basic tool script and a
network failure. -/
theorem no_error_handling_witness :
    basicTool.exceptionHandlers = 0 ∧ basicTool.retryBranches = 0 ∧
    mainOutcome basicTool (some FrameworkError.networkFailure) =
      .error FrameworkError.networkFailure :=
  ⟨(no_error_handling basicTool (by decide)).1,
   (no_error_handling basicTool (by decide)).2.1,
   (no_error_handling basicTool (by decide)).2.2 FrameworkError.networkFailure⟩

/-- C7: no script sets a custom exit code, and a run that completes
without an exception terminates with the runtime's default success
status 0. -/
theorem default_exit_behavior (s : Script) (hs : s ∈ allScripts) :
    s.setsExitCode = false ∧ exitStatus s true = 0 := by
  fin_cases hs <;> decide

/-- C7 witness: the theorem instantiated at the agent script. -/
theorem default_exit_behavior_witness :
    basicAgent.setsExitCode = false ∧ exitStatus basicAgent true = 0 :=
  default_exit_behavior basicAgent (by decide)

/-- C8: in the basic tool script the first element of
`response.tool_calls` is read only under the non-emptiness guard, so the
index access at position 0 never fails: with an empty list no tool is
executed and no indexing occurs, and with a non-empty list the access
yields the head and the tool result. -/
theorem tool_call_guard_safe (tcs : List ToolCall) :
    (tcs = [] → runToolSection tcs = none) ∧
    (tcs ≠ [] → (tcs[0]?).isSome ∧
      ∀ c rest, tcs = c :: rest →
        runToolSection tcs = some (c.toolName, c.args, get_word_length c.args)) := by
  refine ⟨fun h => by simp [runToolSection, h], fun h => ?_⟩
  match tcs with
  | [] => exact absurd rfl h
  | c :: rest =>
      refine ⟨by simp, fun c' rest' hEq => ?_⟩
      cases hEq
      simp [runToolSection]

/-- C8 witness: the theorem instantiated at the empty list and at a
singleton tool-call list. -/
theorem tool_call_guard_safe_witness :
    runToolSection [] = none ∧
    runToolSection [⟨"get_word_length", "LangChain"⟩] =
      some ("get_word_length", "LangChain", 9) :=
  ⟨(tool_call_guard_safe []).1 rfl,
   ((tool_call_guard_safe [⟨"get_word_length", "LangChain"⟩]).2
      (by decide)).2 ⟨"get_word_length", "LangChain"⟩ [] rfl⟩

/-- The index pairs visited by the similarity loop of
`01_basic_embeddings.py` for `n` texts:
`for i in range(n): for j in range(i + 1, n): ...`. -/
def simPairs (n : Nat) : List (Nat × Nat) :=
  (List.range n).flatMap
    (fun i => (List.range' (i + 1) (n - (i + 1))).map (fun j => (i, j)))

theorem simPairs_length_sum (n : Nat) :
    (simPairs n).length = ((List.range n).map (fun i => n - (i + 1))).sum := by
  have hfun : (List.length ∘ fun i =>
      (List.range' (i + 1) (n - (i + 1))).map (fun j => (i, j))) =
      fun i => n - (i + 1) := by
    funext i
    simp [List.length_range']
  simp only [simPairs, List.length_flatMap, List.map_map, hfun]

theorem two_mul_sum_ranges (n : Nat) :
    2 * ((List.range n).map (fun i => n - (i + 1))).sum = n * (n - 1) := by
  induction n with
  | zero => simp
  | succ m ih =>
    rw [List.range_succ_eq_map]
    simp only [List.map_cons, List.map_map, List.sum_cons]
    have hfun : ((fun i => m + 1 - (i + 1)) ∘ Nat.succ) =
        (fun i : Nat => m - (i + 1)) := by
      funext i
      simp only [Function.comp]
      omega
    rw [hfun]
    have key : 2 * m + m * (m - 1) = (m + 1) * m := by
      cases m with
      | zero => simp
      | succ k =>
        simp only [Nat.add_sub_cancel]
        ring
    have hhead : m + 1 - (0 + 1) = m := by omega
    rw [hhead]
    calc 2 * (m + ((List.range m).map (fun i => m - (i + 1))).sum)
        = 2 * m + 2 * ((List.range m).map (fun i => m - (i + 1))).sum := by ring
      _ = 2 * m + m * (m - 1) := by rw [ih]
      _ = (m + 1) * m := key

theorem mem_simPairs {n i j : Nat} : (i, j) ∈ simPairs n ↔ i < j ∧ j < n := by
  simp only [simPairs, List.mem_flatMap, List.mem_map, List.mem_range,
    List.mem_range'_1, Prod.mk.injEq]
  constructor
  · rintro ⟨a, ha, b, ⟨hb1, hb2⟩, rfl, rfl⟩
    omega
  · rintro ⟨hij, hjn⟩
    exact ⟨i, by omega, j, ⟨by omega, by omega⟩, rfl, rfl⟩

theorem simPairs_nodup (n : Nat) : (simPairs n).Nodup := by
  rw [simPairs, List.nodup_flatMap]
  constructor
  · intro i _
    refine (List.nodup_range' ..).map ?_
    intro a b h
    exact congrArg Prod.snd h
  · refine (List.pairwise_lt_range ..).imp ?_
    intro a b hab
    intro x hxa hxb
    simp only [List.mem_map] at hxa hxb
    obtain ⟨j, _, rfl⟩ := hxa
    obtain ⟨j', _, hEq⟩ := hxb
    exact absurd (congrArg Prod.fst hEq) hab.ne'

/-- C10: the embeddings script's similarity loop compares every
unordered pair of distinct texts exactly once: for `n` texts it produces
exactly `n * (n - 1) / 2` index pairs, each pair satisfies `i < j < n`
(so no text is compared with itself), every such pair occurs, and the
pair list has no duplicates. -/
theorem similarity_loop_pairs (n : Nat) :
    2 * (simPairs n).length = n * (n - 1) ∧
    (simPairs n).length = n * (n - 1) / 2 ∧
    (∀ p ∈ simPairs n, p.1 < p.2 ∧ p.2 < n) ∧
    (∀ i : Nat, (i, i) ∉ simPairs n) ∧
    (∀ i j : Nat, i < j → j < n → (i, j) ∈ simPairs n) ∧
    (simPairs n).Nodup := by
  have hlen : 2 * (simPairs n).length = n * (n - 1) := by
    rw [simPairs_length_sum]
    exact two_mul_sum_ranges n
  refine ⟨hlen, by omega, ?_, ?_, ?_, simPairs_nodup n⟩
  · rintro ⟨i, j⟩ hp
    exact mem_simPairs.mp hp
  · intro i hp
    exact absurd (mem_simPairs.mp hp).1 (lt_irrefl i)
  · intro i j hij hjn
    exact mem_simPairs.mpr ⟨hij, hjn⟩

/-- C10 witness: the loop over the script's three texts, instantiated
through the theorem at `n = 3` with concrete pairs. -/
theorem similarity_loop_pairs_witness :
    2 * (simPairs 3).length = 3 * 2 ∧
    (simPairs 3).length = 3 * 2 / 2 ∧
    ((0, 1).1 < (0, 1).2 ∧ (0, 1).2 < 3) ∧
    (1, 1) ∉ simPairs 3 ∧
    (0, 2) ∈ simPairs 3 ∧
    (simPairs 3).Nodup :=
  ⟨(similarity_loop_pairs 3).1,
   (similarity_loop_pairs 3).2.1,
   (similarity_loop_pairs 3).2.2.1 (0, 1) (by decide),
   (similarity_loop_pairs 3).2.2.2.1 1,
   (similarity_loop_pairs 3).2.2.2.2.1 0 2 (by decide) (by decide),
   (similarity_loop_pairs 3).2.2.2.2.2⟩

end LangchainForBeginners
